import Mathlib

/-!
Verification development for the rfp-judge repository.

The repository is a small React application with two concerns that carry
logic worth verifying:

* `DifyResultDisplay.tsx` — a pure aggregation over compliance-assessment
  items (`complianceStats`, built by a `reduce` over the judgement list)
  plus a derived percentage view, and the upload-side file-name validation
  (`validateFile` in the upload component contained in the same file).
* the orchestration component (`DifyFileUploadDemo`) — session state
  (upload history, workflow-result history, a single error slot, and the
  set of fileIds whose workflow call is in flight) together with the
  `executeWorkflow` operation, which we split at its single suspension
  point (the gateway `fetch`) into a synchronous start phase and a
  resolution phase.

JavaScript data is embedded as follows: objects become structures, JS
`Record<string, number>` built by repeated `acc[k] = (acc[k] || 0) + 1`
becomes an association list with keys in insertion order, `Set<string>`
becomes a duplicate-free list, `undefined`-able values become `Option`,
and thrown JS values are reified as an explicit sum type.
-/

/-! ## Compliance aggregation (DifyResultDisplay.tsx) -/

/-- Structure `Assessment` from `DifyResultDisplay.tsx`.  The source declares
`compliance_status` with the literal type `'○' | '△' | '×'`, but the
aggregation code treats it as an arbitrary string key (the display maps
unknown symbols to a default icon/colour), so it is embedded as `String`. -/
structure Assessment where
  compliance_status : String
  reasoning : String
  alternative_solution : Option String := none
  reference_source : Option String := none
  deriving DecidableEq, Repr

/-- Structure `JudgementItem` from `DifyResultDisplay.tsx`. -/
structure JudgementItem where
  original_item : String
  assessment : Assessment
  deriving DecidableEq, Repr

/-- One step of the reduce in `complianceStats`:
`acc[item.assessment.compliance_status] = (acc[...] || 0) + 1` on a JS
object.  A JS object holds at most one slot per key, so the update bumps
the (unique) existing entry or appends a fresh one at the end,
preserving insertion order. -/
def bumpCount : List (String × Nat) → String → List (String × Nat)
  | [], k => [(k, 1)]
  | (k', n) :: rest, k =>
    if k' = k then (k', n + 1) :: rest else (k', n) :: bumpCount rest k

/-- Definition `complianceStats` from `DifyResultDisplay.tsx`:
`result.outputs.judgement.reduce((acc, item) => { acc[s] = (acc[s] || 0) + 1; return acc; }, {})`. -/
def complianceStats (items : List JudgementItem) : List (String × Nat) :=
  items.foldl (fun acc item => bumpCount acc item.assessment.compliance_status) []

/-- Reading `acc[k] || 0` from the stats object. -/
def getCount (acc : List (String × Nat)) (k : String) : Nat :=
  match acc.find? (fun p => p.1 == k) with
  | some p => p.2
  | none => 0

/-- The total of all counts recorded in the stats object. -/
def sumCounts (acc : List (String × Nat)) : Nat :=
  (acc.map (fun p => p.2)).sum

theorem sumCounts_bumpCount (acc : List (String × Nat)) (k : String) :
    sumCounts (bumpCount acc k) = sumCounts acc + 1 := by
  induction acc with
  | nil => rfl
  | cons p rest ih =>
    obtain ⟨k', n⟩ := p
    by_cases h : k' = k
    · simp [bumpCount, h, sumCounts]
      omega
    · simp [bumpCount, h, sumCounts] at ih ⊢
      omega

theorem getCount_nil (k : String) : getCount [] k = 0 := rfl

theorem getCount_cons (k' : String) (n : Nat) (rest : List (String × Nat)) (k : String) :
    getCount ((k', n) :: rest) k = if k' = k then n else getCount rest k := by
  by_cases h : k' = k
  · subst h
    simp [getCount, List.find?]
  · have hb : (k' == k) = false := by
      simp [h]
    simp [getCount, List.find?, hb, h]

theorem getCount_bumpCount (acc : List (String × Nat)) (k k' : String) :
    getCount (bumpCount acc k) k' = getCount acc k' + (if k' = k then 1 else 0) := by
  induction acc with
  | nil =>
    by_cases h : k' = k
    · subst h
      simp [bumpCount, getCount_cons, getCount_nil]
    · have h' : ¬ k = k' := fun hEq => h hEq.symm
      simp [bumpCount, getCount_cons, getCount_nil, h, h']
  | cons p rest ih =>
    obtain ⟨k'', n⟩ := p
    by_cases h : k'' = k
    · subst h
      by_cases h' : k'' = k'
      · subst h'
        simp [bumpCount, getCount_cons]
      · have h'' : ¬ k' = k'' := fun hEq => h' hEq.symm
        simp [bumpCount, getCount_cons, h', h'']
    · by_cases h' : k'' = k'
      · subst h'
        simp [bumpCount, h, getCount_cons]
      · simp [bumpCount, h, getCount_cons, h', ih]

theorem sumCounts_complianceStats_aux (items : List JudgementItem)
    (acc : List (String × Nat)) :
    sumCounts (items.foldl (fun a item => bumpCount a item.assessment.compliance_status) acc)
      = sumCounts acc + items.length := by
  induction items generalizing acc with
  | nil => simp
  | cons item rest ih =>
    simp [List.foldl_cons, ih, sumCounts_bumpCount]
    omega

theorem getCount_complianceStats_aux (items : List JudgementItem)
    (acc : List (String × Nat)) (s : String) :
    getCount (items.foldl (fun a item => bumpCount a item.assessment.compliance_status) acc) s
      = getCount acc s
        + items.countP (fun item => item.assessment.compliance_status == s) := by
  induction items generalizing acc with
  | nil => simp
  | cons item rest ih =>
    by_cases h : item.assessment.compliance_status = s
    · simp [List.foldl_cons, ih, getCount_bumpCount, List.countP_cons, h]
      omega
    · have hb : (item.assessment.compliance_status == s) = false := by
        simp [h]
      have h' : ¬ s = item.assessment.compliance_status := fun hEq => h hEq.symm
      simp [List.foldl_cons, ih, getCount_bumpCount, List.countP_cons, hb, h']

/-- C2: `complianceStats` counts every judgement item exactly once, keyed by
its literal `compliance_status` string: the total of all counts equals the
number of items, and the count stored under any key `s` — known symbol or
not — is exactly the number of items whose status is literally `s`. -/
theorem complianceStats_counts_every_item_once (items : List JudgementItem) (s : String) :
    sumCounts (complianceStats items) = items.length
      ∧ getCount (complianceStats items) s
          = items.countP (fun item => item.assessment.compliance_status == s) := by
  constructor
  · have h := sumCounts_complianceStats_aux items []
    simpa [complianceStats, sumCounts] using h
  · have h := getCount_complianceStats_aux items [] s
    simpa [complianceStats, getCount_nil] using h

/-! ## Derived percentage view (DifyResultDisplay.tsx, compliance summary) -/

/-- JS `Math.round((count / total) * 100)` as rendered in the compliance
summary.  The JS expression is evaluated on IEEE doubles; on the exact
rational it is rounding half up, `(200 * count + total) / (2 * total)` in
natural arithmetic.  When `total = 0` the JS expression is `NaN`
(`0 / 0`), which has no natural-number value, so the embedding returns
`none` in that case.  Only definedness of the value is used below. -/
def jsRoundPercent (count total : Nat) : Option Nat :=
  if total = 0 then none else some ((200 * count + total) / (2 * total))

/-- The list of rows rendered by the compliance-summary block: one row per
entry of `complianceStats` (`Object.entries(complianceStats).map`), each
carrying the status symbol, its count, and the percentage
`Math.round((count / result.outputs.judgement.length) * 100)`. -/
def complianceSummaryEntries (items : List JudgementItem) :
    List (String × Nat × Option Nat) :=
  (complianceStats items).map (fun p => (p.1, p.2, jsRoundPercent p.2 items.length))

def sampleAssessmentFull : Assessment :=
  { compliance_status := "○", reasoning := "ok" }

def sampleJudgementItem : JudgementItem :=
  { original_item := "req1", assessment := sampleAssessmentFull }

/-- C8 counterexample: on the empty judgement list the summary renders no
rows at all — there is no percentage entry whose value is `0` — and the
code's percentage expression evaluated at the empty list's denominator is
`NaN` (no natural value), not `0`.  The claim that "the percentage is
defined as 0 when items.length == 0" therefore does not describe the code. -/
theorem percentage_on_empty_not_zero :
    complianceSummaryEntries [] = [] ∧ jsRoundPercent 0 0 ≠ some 0 := by
  constructor
  · rfl
  · decide

/-- C8 (amended): `complianceStats` on the empty list yields all-zero
counts (every key reads as `0`) without any failure, and the summary view
never divides by zero: percentage rows are only rendered for statuses
present in the stats, so every rendered percentage has a nonzero
denominator, and for the empty list no percentage row is rendered at all. -/
theorem complianceStats_empty_safe (items : List JudgementItem) (s : String) :
    getCount (complianceStats []) s = 0
      ∧ complianceSummaryEntries [] = []
      ∧ ∀ e ∈ complianceSummaryEntries items, e.2.2.isSome := by
  refine ⟨rfl, rfl, ?_⟩
  intro e he
  cases items with
  | nil =>
    simp [complianceSummaryEntries, complianceStats] at he
  | cons item rest =>
    simp [complianceSummaryEntries] at he
    obtain ⟨k, n, _, he⟩ := he
    simp [← he, jsRoundPercent]

/-- Witness for C8's amended theorem at a one-item judgement list. -/
theorem complianceStats_empty_safe_witness :
    getCount (complianceStats []) "○" = 0
      ∧ complianceSummaryEntries [] = []
      ∧ (("○", 1, jsRoundPercent 1 1) : String × Nat × Option Nat).2.2.isSome := by
  have h := complianceStats_empty_safe [sampleJudgementItem] "○"
  exact ⟨h.1, h.2.1, h.2.2 ("○", 1, jsRoundPercent 1 1) (by decide)⟩

/-! ## Orchestration state (DifyFileUploadDemo, src/unnamed/part_000) -/

/-- The browser `File` object attached to an upload result; only its name
is ever read by the orchestration code. -/
structure FileData where
  name : String
  deriving DecidableEq, Repr

/-- Structure `UploadResult` from part_000: the upload gateway's response record plus
the optional original `File` attached by `handleUploadSuccess`. -/
structure UploadResult where
  id : String
  name : String
  size : Nat
  extension : String
  mime_type : String
  created_by : String
  created_at : Nat
  file : Option FileData := none
  deriving DecidableEq, Repr

/-- The parsed JSON body of a successful workflow call, restricted to the
fields the repository reads: `workflow_run_id` (part_000, record id),
the run `status` symbol, and `outputs.judgement` together with the
optional `error` (DifyResultDisplay).  Display-only numeric metadata
(`elapsed_time` etc.) is not read by any state transition and is omitted. -/
structure DifyPayload where
  workflow_run_id : Option String := none
  status : String := ""
  judgement : List JudgementItem := []
  error : Option String := none
  deriving DecidableEq, Repr

/-- The `status` field of `WorkflowResult` in part_000:
`"running" | "completed" | "failed"`. -/
inductive WStatus where
  | running
  | completed
  | failed
  deriving DecidableEq, Repr

/-- Structure `WorkflowResult` from part_000. -/
structure WorkflowResult where
  id : String
  file_id : String
  status : WStatus
  result : Option DifyPayload := none
  created_at : Nat
  error : Option String := none
  deriving DecidableEq, Repr

/-- The component state of `DifyFileUploadDemo`: the `useState` slots that
the orchestration logic reads or writes.  `executingWorkflows` is a JS
`Set<string>` and is kept as a duplicate-free list in insertion order. -/
structure DemoState where
  workflowApiKey : String
  userId : String
  uploadResults : List UploadResult
  workflowResults : List WorkflowResult
  error : Option String := none
  executingWorkflows : List String := []
  deriving DecidableEq, Repr

/-- JS `Set.add`: a no-op when the element is present, otherwise appended. -/
def setAdd (l : List String) (x : String) : List String :=
  if l.contains x then l else l ++ [x]

/-- JS `Set.delete`: removes the element (sets hold no duplicates). -/
def setDelete (l : List String) (x : String) : List String :=
  l.filter (fun y => !(y == x))

/-- Function `handleUploadSuccess` from part_000: spreads the gateway result with
the original `File` attached, prepends it to the upload history, and
clears the error slot. -/
def handleUploadSuccess (s : DemoState) (result : UploadResult) (f : FileData) : DemoState :=
  { s with uploadResults := { result with file := some f } :: s.uploadResults,
           error := none }

/-- Function `handleUploadError` from part_000. -/
def handleUploadError (s : DemoState) (errorMessage : String) : DemoState :=
  { s with error := some errorMessage }

/-- Helper for `jsTrim`: drop leading whitespace characters. -/
def dropLeadingWs : List Char → List Char
  | [] => []
  | c :: rest => if c.isWhitespace then dropLeadingWs rest else c :: rest

/-- JS `String.prototype.trim()`: strip whitespace from both ends
(embedded structurally over the character list so that it evaluates). -/
def jsTrim (s : String) : String :=
  String.mk ((dropLeadingWs (dropLeadingWs s.toList).reverse).reverse)

/-- How the synchronous prefix of `executeWorkflow` (everything before the
`await fetch`) ends: an early `return` on a validation failure, or the
gateway call being issued. -/
inductive StartOutcome where
  | missingApiKey
  | fileNotFound
  | started
  deriving DecidableEq, Repr

/-- JS `uploadResults.find((result) => result.id === fileId)`. -/
def lookupUpload (s : DemoState) (fileId : String) : Option UploadResult :=
  s.uploadResults.find? (fun r => r.id == fileId)

/-- The synchronous prefix of `executeWorkflow(fileId)` from part_000, up
to the suspension point at the gateway `fetch`: validates that the
workflow API key is non-blank and that the fileId is registered with its
`File` attached, then marks the fileId as executing and clears the error
slot.  Note that it performs no check of `executingWorkflows`. -/
def executeWorkflowStart (s : DemoState) (fileId : String) : DemoState × StartOutcome :=
  if jsTrim s.workflowApiKey = "" then
    ({ s with error := some "ワークフロー用のAPI Keyを入力してください" }, .missingApiKey)
  else
    match lookupUpload s fileId with
    | none => ({ s with error := some "ファイルが見つかりません" }, .fileNotFound)
    | some r =>
      match r.file with
      | none => ({ s with error := some "ファイルが見つかりません" }, .fileNotFound)
      | some _ =>
        ({ s with executingWorkflows := setAdd s.executingWorkflows fileId,
                  error := none },
         .started)

/-- A thrown JS value as seen by the `catch` block: an `Error` instance
carrying its message, or any other value. -/
inductive JsThrown where
  | jsError (msg : String)
  | nonErrorValue
  deriving DecidableEq, Repr

/-- JS `error instanceof Error ? error.message : "ワークフロー実行エラーが発生しました"`. -/
def errorMessageOf : JsThrown → String
  | .jsError msg => msg
  | .nonErrorValue => "ワークフロー実行エラーが発生しました"

/-- The message built and thrown by part_000 when `!response.ok`:
`` `ワークフロー実行に失敗しました: ${status} ${statusText}\n詳細: ${errorText}` ``. -/
def workflowFailMessage (status : Nat) (statusText errorText : String) : String :=
  "ワークフロー実行に失敗しました: " ++ toString status ++ " " ++ statusText
    ++ "\n詳細: " ++ errorText

/-- How the awaited gateway interaction of `executeWorkflow` turns out:
an HTTP-ok response whose body parses to a payload; a non-ok response
(status, statusText, body text — the code throws its templated `Error`);
a body that fails to parse (the runtime's thrown value); or the `fetch`
itself rejecting (network failure). -/
inductive GatewayOutcome where
  | ok (payload : DifyPayload)
  | httpError (status : Nat) (statusText errorText : String)
  | jsonError (thrown : JsThrown)
  | networkError (thrown : JsThrown)
  deriving DecidableEq, Repr

/-- The error message the `catch` block of `executeWorkflow` computes for
a failing gateway interaction (`none` when the interaction succeeded). -/
def failureMessage : GatewayOutcome → Option String
  | .ok _ => none
  | .httpError status statusText errorText =>
    some (workflowFailMessage status statusText errorText)
  | .jsonError thrown => some (errorMessageOf thrown)
  | .networkError thrown => some (errorMessageOf thrown)

/-- The completed `WorkflowResult` built in the `try` block:
`result.workflow_run_id || workflow_<Date.now()>` for the id (JS `||` also
rejects the empty string), status `"completed"` unconditionally, the
parsed payload attached, `created_at := Math.floor(Date.now() / 1000)`. -/
def completedRecord (fileId : String) (payload : DifyPayload) (nowMs : Nat) : WorkflowResult :=
  { id :=
      match payload.workflow_run_id with
      | some i => if i = "" then "workflow_" ++ toString nowMs else i
      | none => "workflow_" ++ toString nowMs,
    file_id := fileId,
    status := .completed,
    result := some payload,
    created_at := nowMs / 1000 }

/-- The failed `WorkflowResult` built in the `catch` block. -/
def failedRecord (fileId errorMessage : String) (nowMs : Nat) : WorkflowResult :=
  { id := "failed_" ++ toString nowMs,
    file_id := fileId,
    status := .failed,
    created_at := nowMs / 1000,
    error := some errorMessage }

/-- The `catch` path of `executeWorkflow`: surfaces the message in the
error slot and prepends a failed record (the shared `finally` clearing of
the executing flag is folded into `executeWorkflowResolve`). -/
def failPath (s : DemoState) (fileId errorMessage : String) (nowMs : Nat) : DemoState :=
  { s with error := some errorMessage,
           workflowResults := failedRecord fileId errorMessage nowMs :: s.workflowResults }

/-- The continuation of `executeWorkflow(fileId)` after the gateway
interaction resolves: on success, prepend a completed record carrying the
payload; on any failure, surface the computed message and prepend a
failed record; in all cases (`finally`) delete the fileId from
`executingWorkflows`.  Both `Date.now()` reads of one resolution are
modelled by a single `nowMs`. -/
def executeWorkflowResolve (s : DemoState) (fileId : String)
    (out : GatewayOutcome) (nowMs : Nat) : DemoState :=
  let s' :=
    match out with
    | .ok payload =>
      { s with workflowResults := completedRecord fileId payload nowMs :: s.workflowResults }
    | .httpError status statusText errorText =>
      failPath s fileId (workflowFailMessage status statusText errorText) nowMs
    | .jsonError thrown => failPath s fileId (errorMessageOf thrown) nowMs
    | .networkError thrown => failPath s fileId (errorMessageOf thrown) nowMs
  { s' with executingWorkflows := setDelete s'.executingWorkflows fileId }

/-- Function `getWorkflowResultForFile` from part_000: the first (most recently
prepended) workflow result for the fileId. -/
def getWorkflowResultForFile (s : DemoState) (fileId : String) : Option WorkflowResult :=
  s.workflowResults.find? (fun r => r.file_id == fileId)

/-- JS `executingWorkflows.has(result.id)`. -/
def isExecuting (s : DemoState) (fileId : String) : Bool :=
  s.executingWorkflows.contains fileId

/-- The presentation-facing read model for one fileId: the pending flag
and the most recent execution record, exactly the two projections the
rendering code reads. -/
structure ReadModel where
  pending : Bool
  latest : Option WorkflowResult
  deriving DecidableEq, Repr

def readModel (s : DemoState) (fileId : String) : ReadModel :=
  { pending := isExecuting s fileId, latest := getWorkflowResultForFile s fileId }

/-- The control rendered in the action cell of an upload row (part_000,
the IIFE in the table body): a disabled spinner button while executing, a
success chip for a completed latest result, a retry button (wired to
`executeWorkflow`) for a failed one, and the plain execute button
otherwise.  Only the retry and execute buttons carry an
`executeWorkflow` handler. -/
inductive ActionControl where
  | executingDisabled
  | completedChip
  | retryButton (fileId : String)
  | executeButton (fileId : String)
  deriving DecidableEq, Repr

def actionCellFor (s : DemoState) (fileId : String) : ActionControl :=
  if isExecuting s fileId then .executingDisabled
  else
    match getWorkflowResultForFile s fileId with
    | some r =>
      match r.status with
      | .completed => .completedChip
      | .failed => .retryButton fileId
      | .running => .executeButton fileId
    | none => .executeButton fileId

/-- The colour of the status chip in `DifyResultDisplay`:
`result.status === "succeeded" ? "success" : "error"` — the display layer
treats every payload status other than a definitive success as an error. -/
def statusChipColor (status : String) : String :=
  if status = "succeeded" then "success" else "error"

/-! ## Upload file validation (DifyFileUpload, in DifyResultDisplay.tsx) -/

/-- List `supportedFormats` from the upload component. -/
def supportedFormats : List String :=
  ["png", "jpg", "jpeg", "webp", "gif", "pdf"]

/-- The rejection message:
`` `サポートされていないファイル形式です。対応形式: ${supportedFormats.join(', ')}` ``. -/
def unsupportedFormatMessage : String :=
  "サポートされていないファイル形式です。対応形式: " ++ String.intercalate ", " supportedFormats

/-- JS `name.split('.')` for the one-character separator `'.'`, over the
character list.  Splitting never yields the empty list: the empty string
splits to `[""]`. -/
def jsSplitDot : List Char → List (List Char)
  | [] => [[]]
  | c :: rest =>
    match jsSplitDot rest with
    | [] => [[]]
    | seg :: segs => if c = '.' then [] :: seg :: segs else (c :: seg) :: segs

/-- Function `validateFile` from the upload component:
`const extension = file.name.split('.').pop()?.toLowerCase();`
`if (!extension || !supportedFormats.includes(extension)) return message;`
`return null;` — `pop()` takes the final segment (`getLast?`), and the JS
falsy test rejects `undefined` and the empty string alike. -/
def validateFile (name : String) : Option String :=
  match (jsSplitDot name.toList).getLast? with
  | none => some unsupportedFormatMessage
  | some seg =>
    if String.mk (seg.map Char.toLower) = ""
        ∨ String.mk (seg.map Char.toLower) ∉ supportedFormats then
      some unsupportedFormatMessage
    else
      none

/-- The lowercased final `'.'`-separated segment of a file name — the
whole name lowercased when the name contains no `'.'` (with the empty
string standing in for the impossible `pop()`-of-nothing case). -/
def lastSegmentLower (name : String) : String :=
  match (jsSplitDot name.toList).getLast? with
  | none => ""
  | some seg => String.mk (seg.map Char.toLower)

/-! ## Auxiliary lemmas about the executing set -/

theorem contains_setDelete_self (l : List String) (x : String) :
    (setDelete l x).contains x = false := by
  simp [setDelete, List.contains, List.elem_eq_mem, List.mem_filter]

theorem setAdd_of_contains (l : List String) (x : String) (h : l.contains x = true) :
    setAdd l x = l := by
  simp at h
  simp [setAdd, h]

theorem contains_setAdd_of_ne (l : List String) (x y : String) (h : ¬ x = y) :
    (setAdd l y).contains x = l.contains x := by
  by_cases hc : y ∈ l
  · simp [setAdd, hc]
  · simp [setAdd, hc, List.contains, List.elem_eq_mem, h]

theorem contains_setDelete_of_ne (l : List String) (x y : String) (h : ¬ x = y) :
    (setDelete l y).contains x = l.contains x := by
  simp [setDelete, List.contains, List.elem_eq_mem, List.mem_filter, h]

/-! ## Sample data for witnesses and counterexamples -/

def sampleFile : FileData := { name := "doc.pdf" }

def sampleUpload : UploadResult :=
  { id := "f1", name := "doc.pdf", size := 1024, extension := "pdf",
    mime_type := "application/pdf", created_by := "user-123",
    created_at := 1700000000, file := some sampleFile }

/-- A session with one registered upload (`f1`), a usable workflow key,
and nothing in flight. -/
def baseState : DemoState :=
  { workflowApiKey := "wf-key", userId := "user-123",
    uploadResults := [sampleUpload], workflowResults := [] }

/-- State `baseState` with an execution for `f1` already in flight. -/
def pendingState : DemoState :=
  { baseState with executingWorkflows := ["f1"] }

/-- State `baseState` with a whitespace-only workflow API key. -/
def blankCredState : DemoState :=
  { baseState with workflowApiKey := " " }

/-- A payload whose own run status is `"running"` — not a definitive
success. -/
def runningPayload : DifyPayload :=
  { workflow_run_id := some "run-1", status := "running" }

/-- A payload whose own run status is `"succeeded"`. -/
def succeededPayload : DifyPayload :=
  { workflow_run_id := some "run-2", status := "succeeded",
    judgement := [sampleJudgementItem] }

/-! ## Helper lemmas about executeWorkflow's phases -/

theorem start_preserves_histories (s : DemoState) (fileId : String) :
    (executeWorkflowStart s fileId).1.uploadResults = s.uploadResults
      ∧ (executeWorkflowStart s fileId).1.workflowResults = s.workflowResults
      ∧ (executeWorkflowStart s fileId).1.workflowApiKey = s.workflowApiKey := by
  unfold executeWorkflowStart
  by_cases h : jsTrim s.workflowApiKey = ""
  · simp [h]
  · simp [h]
    cases hl : lookupUpload s fileId with
    | none => simp
    | some r =>
      cases hf : r.file with
      | none => simp [hf]
      | some f => simp [hf]

theorem start_executingWorkflows_cases (s : DemoState) (fileId : String) :
    (executeWorkflowStart s fileId).1.executingWorkflows = s.executingWorkflows
      ∨ (executeWorkflowStart s fileId).1.executingWorkflows
          = setAdd s.executingWorkflows fileId := by
  unfold executeWorkflowStart
  by_cases h : jsTrim s.workflowApiKey = ""
  · simp [h]
  · simp [h]
    cases hl : lookupUpload s fileId with
    | none => simp
    | some r =>
      cases hf : r.file with
      | none => simp [hf]
      | some f => simp [hf]

theorem start_started_of_valid (s : DemoState) (fileId : String)
    (hcred : ¬ jsTrim s.workflowApiKey = "")
    (hfile : ∃ r f, lookupUpload s fileId = some r ∧ r.file = some f) :
    (executeWorkflowStart s fileId).2 = .started := by
  obtain ⟨r, f, hr, hf⟩ := hfile
  simp [executeWorkflowStart, hcred, hr, hf]

theorem resolve_preserves_uploads (s : DemoState) (fileId : String)
    (out : GatewayOutcome) (nowMs : Nat) :
    (executeWorkflowResolve s fileId out nowMs).uploadResults = s.uploadResults
      ∧ (executeWorkflowResolve s fileId out nowMs).workflowApiKey = s.workflowApiKey := by
  cases out <;> exact ⟨rfl, rfl⟩

theorem lookupUpload_resolve (s : DemoState) (fileId fileId' : String)
    (out : GatewayOutcome) (nowMs : Nat) :
    lookupUpload (executeWorkflowResolve s fileId out nowMs) fileId'
      = lookupUpload s fileId' := by
  cases out <;> rfl

theorem resolve_ok_preserves_error (s : DemoState) (fileId : String)
    (p : DifyPayload) (nowMs : Nat) :
    (executeWorkflowResolve s fileId (.ok p) nowMs).error = s.error := rfl

theorem workflowFailMessage_ne_empty (status : Nat) (statusText errorText : String) :
    ¬ workflowFailMessage status statusText errorText = "" := by
  intro h
  have h1 : (workflowFailMessage status statusText errorText).length = 0 := by
    rw [h]
    rfl
  have h2 : (0 : Nat) < "ワークフロー実行に失敗しました: ".length := by decide
  unfold workflowFailMessage at h1
  simp [String.length_append] at h1
  omega

/-- The part of gateway-failure nonemptiness that is the runtime's rather
than the repository's: thrown `fetch`/`json()` rejections are `Error`
instances with non-empty messages. -/
def runtimeMessagesNonempty : GatewayOutcome → Prop
  | .jsonError (.jsError msg) => ¬ msg = ""
  | .networkError (.jsError msg) => ¬ msg = ""
  | _ => True

/-! ## C1: the per-file pending guard -/

/-- C1 counterexample: in a session where an execution for `"f1"` is
already in flight, calling `executeWorkflow("f1")` again is *not*
rejected — its synchronous prefix reaches the gateway call and issues a
second request for the same fileId. -/
theorem second_trigger_while_pending_issues_gateway_call :
    (executeWorkflowStart pendingState "f1").2 = StartOutcome.started := by
  decide

/-- C1 (amended): `executeWorkflow` itself carries no pending check: a
call for an already-pending fileId passes validation, issues a second
gateway call, and leaves the executing set unchanged (the `Set.add` is
idempotent).  Mutual exclusion is enforced only at the rendering layer,
where the action cell of a pending fileId is a disabled button with no
`executeWorkflow` handler; and triggering one fileId never touches a
different fileId's pending flag. -/
theorem executeWorkflow_has_no_pending_guard (s : DemoState) (fid other : String)
    (hpend : isExecuting s fid = true)
    (hcred : ¬ jsTrim s.workflowApiKey = "")
    (hfile : ∃ r f, lookupUpload s fid = some r ∧ r.file = some f)
    (hne : ¬ fid = other) :
    (executeWorkflowStart s fid).2 = StartOutcome.started
      ∧ (executeWorkflowStart s fid).1.executingWorkflows = s.executingWorkflows
      ∧ actionCellFor s fid = ActionControl.executingDisabled
      ∧ isExecuting (executeWorkflowStart s other).1 fid = true := by
  obtain ⟨r, f, hr, hf⟩ := hfile
  refine ⟨start_started_of_valid s fid hcred ⟨r, f, hr, hf⟩, ?_, ?_, ?_⟩
  · have hEq : (executeWorkflowStart s fid).1.executingWorkflows
        = setAdd s.executingWorkflows fid := by
      simp [executeWorkflowStart, hcred, hr, hf]
    rw [hEq, setAdd_of_contains]
    exact hpend
  · simp [actionCellFor, hpend]
  · rcases start_executingWorkflows_cases s other with hcase | hcase
    · simpa [isExecuting, hcase] using hpend
    · have : isExecuting (executeWorkflowStart s other).1 fid
          = isExecuting s fid := by
        unfold isExecuting
        rw [hcase, contains_setAdd_of_ne _ _ _ hne]
      rw [this]
      exact hpend

/-- Witness for C1's amended theorem at a concrete pending session. -/
theorem executeWorkflow_has_no_pending_guard_witness :
    (executeWorkflowStart pendingState "f1").2 = StartOutcome.started
      ∧ (executeWorkflowStart pendingState "f1").1.executingWorkflows
          = pendingState.executingWorkflows
      ∧ actionCellFor pendingState "f1" = ActionControl.executingDisabled
      ∧ isExecuting (executeWorkflowStart pendingState "f2").1 "f1" = true :=
  executeWorkflow_has_no_pending_guard pendingState "f1" "f2" (by decide) (by decide)
    ⟨sampleUpload, sampleFile, by decide, by decide⟩ (by decide)

/-! ## C3: terminal transition vs. payload status -/

/-- C3 counterexample: the gateway call returns an HTTP-ok, parsable
payload whose own run status is `"running"` — not a definitive success —
yet the appended execution record is marked `completed` (with the payload
attached) and the pending flag is cleared: the record *is* marked
completed merely because the call returned. -/
theorem running_payload_still_marked_completed :
    readModel
        (executeWorkflowResolve (executeWorkflowStart baseState "f1").1 "f1"
          (GatewayOutcome.ok runningPayload) 5000) "f1"
      = { pending := false,
          latest := some
            { id := "run-1", file_id := "f1", status := WStatus.completed,
              result := some runningPayload, created_at := 5,
              error := none } } := by
  decide

/-- C3 (amended): the terminal transition of the execution record ignores
the payload's status symbol entirely — every HTTP-ok, parsable response
yields a `completed` record with the payload attached, whatever the
payload says — while the treatment of any status other than a definitive
success as non-success lives in the display layer, whose status chip is
coloured `"error"` for every payload status except `"succeeded"`. -/
theorem resolve_ok_ignores_payload_status (s : DemoState) (fid : String)
    (p : DifyPayload) (nowMs : Nat) (hns : ¬ p.status = "succeeded") :
    getWorkflowResultForFile (executeWorkflowResolve s fid (GatewayOutcome.ok p) nowMs) fid
        = some (completedRecord fid p nowMs)
      ∧ (completedRecord fid p nowMs).status = WStatus.completed
      ∧ (completedRecord fid p nowMs).result = some p
      ∧ statusChipColor p.status = "error" := by
  refine ⟨?_, rfl, rfl, ?_⟩
  · simp [executeWorkflowResolve, getWorkflowResultForFile, List.find?, completedRecord]
  · simp [statusChipColor, hns]

/-- Witness for C3's amended theorem at the `"running"` payload. -/
theorem resolve_ok_ignores_payload_status_witness :
    getWorkflowResultForFile
        (executeWorkflowResolve baseState "f1" (GatewayOutcome.ok runningPayload) 5000) "f1"
        = some (completedRecord "f1" runningPayload 5000)
      ∧ (completedRecord "f1" runningPayload 5000).status = WStatus.completed
      ∧ (completedRecord "f1" runningPayload 5000).result = some runningPayload
      ∧ statusChipColor runningPayload.status = "error" :=
  resolve_ok_ignores_payload_status baseState "f1" runningPayload 5000 (by decide)

/-! ## C4: gateway failure handling -/

theorem resolve_failure_eq (s : DemoState) (fid msg : String)
    (out : GatewayOutcome) (nowMs : Nat)
    (hfail : failureMessage out = some msg) :
    executeWorkflowResolve s fid out nowMs
      = { s with error := some msg,
                 workflowResults := failedRecord fid msg nowMs :: s.workflowResults,
                 executingWorkflows := setDelete s.executingWorkflows fid } := by
  cases out with
  | ok p => simp [failureMessage] at hfail
  | httpError status statusText errorText =>
    simp [failureMessage] at hfail
    subst hfail
    rfl
  | jsonError thrown =>
    simp [failureMessage] at hfail
    subst hfail
    rfl
  | networkError thrown =>
    simp [failureMessage] at hfail
    subst hfail
    rfl

theorem failureMessage_ne_empty (out : GatewayOutcome) (msg : String)
    (hfail : failureMessage out = some msg) (hrt : runtimeMessagesNonempty out) :
    ¬ msg = "" := by
  cases out with
  | ok p => simp [failureMessage] at hfail
  | httpError status statusText errorText =>
    simp [failureMessage] at hfail
    subst hfail
    exact workflowFailMessage_ne_empty status statusText errorText
  | jsonError thrown =>
    cases thrown with
    | jsError m =>
      simp [failureMessage, errorMessageOf] at hfail
      subst hfail
      simpa [runtimeMessagesNonempty] using hrt
    | nonErrorValue =>
      simp [failureMessage, errorMessageOf] at hfail
      subst hfail
      decide
  | networkError thrown =>
    cases thrown with
    | jsError m =>
      simp [failureMessage, errorMessageOf] at hfail
      subst hfail
      simpa [runtimeMessagesNonempty] using hrt
    | nonErrorValue =>
      simp [failureMessage, errorMessageOf] at hfail
      subst hfail
      decide

/-- C4: whenever the gateway interaction for a fileId fails — non-2xx
response, unparsable body, or network failure — a terminal `failed`
record carrying a non-empty error message is appended for that fileId
(and becomes the latest record the read model reports), the pending flag
is cleared, and a subsequent `executeWorkflow` for the same fileId passes
validation and issues its gateway call again. -/
theorem gateway_failure_recorded_and_retryable (s : DemoState) (fid msg : String)
    (out : GatewayOutcome) (nowMs : Nat)
    (hfail : failureMessage out = some msg)
    (hrt : runtimeMessagesNonempty out)
    (hcred : ¬ jsTrim s.workflowApiKey = "")
    (hfile : ∃ r f, lookupUpload s fid = some r ∧ r.file = some f) :
    readModel (executeWorkflowResolve s fid out nowMs) fid
        = { pending := false, latest := some (failedRecord fid msg nowMs) }
      ∧ ¬ msg = ""
      ∧ (failedRecord fid msg nowMs).status = WStatus.failed
      ∧ (failedRecord fid msg nowMs).error = some msg
      ∧ (executeWorkflowStart (executeWorkflowResolve s fid out nowMs) fid).2
          = StartOutcome.started := by
  have hEq := resolve_failure_eq s fid msg out nowMs hfail
  refine ⟨?_, failureMessage_ne_empty out msg hfail hrt, rfl, rfl, ?_⟩
  · rw [hEq]
    have hpend : fid ∉ setDelete s.executingWorkflows fid := by
      simpa using contains_setDelete_self s.executingWorkflows fid
    simp [readModel, isExecuting, getWorkflowResultForFile, List.find?,
      failedRecord, hpend]
  · apply start_started_of_valid
    · rw [hEq]
      exact hcred
    · obtain ⟨r, f, hr, hf⟩ := hfile
      refine ⟨r, f, ?_, hf⟩
      rw [lookupUpload_resolve]
      exact hr

/-- Witness for C4 at a concrete 500 response. -/
theorem gateway_failure_recorded_and_retryable_witness :
    readModel
        (executeWorkflowResolve pendingState "f1"
          (GatewayOutcome.httpError 500 "Internal Server Error" "boom") 5000) "f1"
        = { pending := false,
            latest := some
              (failedRecord "f1" (workflowFailMessage 500 "Internal Server Error" "boom") 5000) }
      ∧ ¬ workflowFailMessage 500 "Internal Server Error" "boom" = ""
      ∧ (failedRecord "f1" (workflowFailMessage 500 "Internal Server Error" "boom") 5000).status
          = WStatus.failed
      ∧ (failedRecord "f1" (workflowFailMessage 500 "Internal Server Error" "boom") 5000).error
          = some (workflowFailMessage 500 "Internal Server Error" "boom")
      ∧ (executeWorkflowStart
          (executeWorkflowResolve pendingState "f1"
            (GatewayOutcome.httpError 500 "Internal Server Error" "boom") 5000) "f1").2
          = StartOutcome.started :=
  gateway_failure_recorded_and_retryable pendingState "f1"
    (workflowFailMessage 500 "Internal Server Error" "boom")
    (GatewayOutcome.httpError 500 "Internal Server Error" "boom") 5000
    rfl trivial (by decide) ⟨sampleUpload, sampleFile, by decide, by decide⟩

/-! ## C5: validation failures -/

/-- C5: a trigger with a blank (empty or whitespace-only) workflow
credential, or for a fileId with no registered upload, returns before the
gateway call with only the error slot changed: the resulting state equals
the old state with the validation message in `error`, so no execution
record is created, the pending set is untouched, and the outcome is the
early return rather than a started gateway call. -/
theorem validation_failure_only_sets_error (s : DemoState) (fid : String) :
    (jsTrim s.workflowApiKey = "" →
        executeWorkflowStart s fid
          = ({ s with error := some "ワークフロー用のAPI Keyを入力してください" },
             StartOutcome.missingApiKey))
      ∧ (¬ jsTrim s.workflowApiKey = "" → lookupUpload s fid = none →
        executeWorkflowStart s fid
          = ({ s with error := some "ファイルが見つかりません" },
             StartOutcome.fileNotFound)) := by
  constructor
  · intro h
    simp [executeWorkflowStart, h]
  · intro h hnone
    simp [executeWorkflowStart, h, hnone]

/-- Witness for C5: a whitespace-only credential, and the unknown fileId
`"ghost"`. -/
theorem validation_failure_only_sets_error_witness :
    executeWorkflowStart blankCredState "f1"
        = ({ blankCredState with error := some "ワークフロー用のAPI Keyを入力してください" },
           StartOutcome.missingApiKey)
      ∧ executeWorkflowStart baseState "ghost"
          = ({ baseState with error := some "ファイルが見つかりません" },
             StartOutcome.fileNotFound) :=
  ⟨(validation_failure_only_sets_error blankCredState "f1").1 (by decide),
   (validation_failure_only_sets_error baseState "ghost").2 (by decide) (by decide)⟩

/-! ## C6: append-only histories -/

/-- C6: the histories are append-only.  Upload registration prepends one
entry and leaves the workflow history alone; the start phase of a trigger
touches neither history; resolution leaves the upload history alone and
prepends exactly one record (terminal `completed` or `failed`) for the
triggered fileId in front of the untouched prior records; and after a
resolution — terminal success or failure alike — a new trigger for the
same fileId passes validation and issues its gateway call again. -/
theorem history_append_only (s : DemoState) (r : UploadResult) (f : FileData)
    (fid : String) (out : GatewayOutcome) (nowMs : Nat) :
    (handleUploadSuccess s r f).uploadResults
        = { r with file := some f } :: s.uploadResults
      ∧ (handleUploadSuccess s r f).workflowResults = s.workflowResults
      ∧ (executeWorkflowStart s fid).1.uploadResults = s.uploadResults
      ∧ (executeWorkflowStart s fid).1.workflowResults = s.workflowResults
      ∧ (executeWorkflowResolve s fid out nowMs).uploadResults = s.uploadResults
      ∧ (∃ rec : WorkflowResult, rec.file_id = fid
          ∧ (executeWorkflowResolve s fid out nowMs).workflowResults
              = rec :: s.workflowResults)
      ∧ (¬ jsTrim s.workflowApiKey = "" →
          (∃ r' f', lookupUpload s fid = some r' ∧ r'.file = some f') →
          (executeWorkflowStart (executeWorkflowResolve s fid out nowMs) fid).2
            = StartOutcome.started) := by
  refine ⟨rfl, rfl, (start_preserves_histories s fid).1,
    (start_preserves_histories s fid).2.1,
    (resolve_preserves_uploads s fid out nowMs).1, ?_, ?_⟩
  · cases out with
    | ok p => exact ⟨completedRecord fid p nowMs, rfl, rfl⟩
    | httpError status statusText errorText =>
      exact ⟨failedRecord fid (workflowFailMessage status statusText errorText) nowMs,
        rfl, rfl⟩
    | jsonError thrown => exact ⟨failedRecord fid (errorMessageOf thrown) nowMs, rfl, rfl⟩
    | networkError thrown => exact ⟨failedRecord fid (errorMessageOf thrown) nowMs, rfl, rfl⟩
  · intro hcred hfile
    apply start_started_of_valid
    · rw [(resolve_preserves_uploads s fid out nowMs).2]
      exact hcred
    · obtain ⟨r', f', hr, hf⟩ := hfile
      refine ⟨r', f', ?_, hf⟩
      rw [lookupUpload_resolve]
      exact hr

/-- Witness for C6: registering over `baseState` and re-triggering `f1`
after a successful resolution. -/
theorem history_append_only_witness :
    (handleUploadSuccess baseState sampleUpload sampleFile).uploadResults
        = { sampleUpload with file := some sampleFile } :: baseState.uploadResults
      ∧ (executeWorkflowStart
          (executeWorkflowResolve baseState "f1" (GatewayOutcome.ok succeededPayload) 5000)
          "f1").2 = StartOutcome.started := by
  have h := history_append_only baseState sampleUpload sampleFile "f1"
    (GatewayOutcome.ok succeededPayload) 5000
  exact ⟨h.1, h.2.2.2.2.2.2 (by decide) ⟨sampleUpload, sampleFile, by decide, by decide⟩⟩

/-! ## C7: duplicate upload identities -/

/-- A second upload result carrying the already-registered id `"f1"`. -/
def dupUpload : UploadResult :=
  { id := "f1", name := "other.pdf", size := 2048, extension := "pdf",
    mime_type := "application/pdf", created_by := "user-123",
    created_at := 1700000100 }

/-- C7 counterexample: registering an upload whose id `"f1"` is already
registered is not rejected — afterwards the registry holds two entries
under the same id. -/
theorem duplicate_upload_id_admitted :
    ((handleUploadSuccess baseState dupUpload sampleFile).uploadResults.filter
        (fun r => r.id == "f1")).length = 2 := by
  decide

/-- C7 (amended): `handleUploadSuccess` prepends unconditionally
(most-recent-first) and performs no id-collision check: a colliding id is
admitted as an additional entry, and lookup by that id afterwards returns
the most recently registered record. -/
theorem register_prepends_without_id_check (s : DemoState) (r : UploadResult) (f : FileData) :
    (handleUploadSuccess s r f).uploadResults
        = { r with file := some f } :: s.uploadResults
      ∧ lookupUpload (handleUploadSuccess s r f) r.id = some { r with file := some f } := by
  refine ⟨rfl, ?_⟩
  simp [lookupUpload, handleUploadSuccess, List.find?]

/-! ## C9: the error slot and retry affordance -/

theorem start_error_of_started (s : DemoState) (fid : String)
    (h : (executeWorkflowStart s fid).2 = StartOutcome.started) :
    (executeWorkflowStart s fid).1.error = none := by
  unfold executeWorkflowStart at h ⊢
  by_cases hc : jsTrim s.workflowApiKey = ""
  · simp [hc] at h
  · simp only [hc, if_false] at h ⊢
    cases hl : lookupUpload s fid with
    | none => simp [hl] at h
    | some rr =>
      cases hf : rr.file with
      | none => simp [hl, hf] at h
      | some ff => simp [hl, hf]

/-- C9: the surfaced error message is a single optional slot: upload
success clears it, a trigger that passes validation clears it before the
gateway call and a successful resolution leaves it clear, while every
failing gateway interaction (and `handleUploadError`) writes its message
into it; a failed execution is not discarded — its record stays as the
latest in history and its action cell is the retry button wired back to
`executeWorkflow`. -/
theorem error_slot_single_and_cleared_on_success (s : DemoState) (r : UploadResult)
    (f : FileData) (fid msg : String) (p : DifyPayload) (out : GatewayOutcome)
    (nowMs : Nat) :
    (handleUploadSuccess s r f).error = none
      ∧ (handleUploadError s msg).error = some msg
      ∧ ((executeWorkflowStart s fid).2 = StartOutcome.started →
          (executeWorkflowStart s fid).1.error = none)
      ∧ ((executeWorkflowStart s fid).2 = StartOutcome.started →
          (executeWorkflowResolve (executeWorkflowStart s fid).1 fid
              (GatewayOutcome.ok p) nowMs).error = none)
      ∧ (failureMessage out = some msg →
          (executeWorkflowResolve s fid out nowMs).error = some msg
            ∧ getWorkflowResultForFile (executeWorkflowResolve s fid out nowMs) fid
                = some (failedRecord fid msg nowMs)
            ∧ actionCellFor (executeWorkflowResolve s fid out nowMs) fid
                = ActionControl.retryButton fid) := by
  refine ⟨rfl, rfl, start_error_of_started s fid, ?_, ?_⟩
  · intro h
    rw [resolve_ok_preserves_error]
    exact start_error_of_started s fid h
  · intro hfail
    have hEq := resolve_failure_eq s fid msg out nowMs hfail
    rw [hEq]
    have hpend : (setDelete s.executingWorkflows fid).contains fid = false :=
      contains_setDelete_self s.executingWorkflows fid
    have hpend' : fid ∉ setDelete s.executingWorkflows fid := by
      simpa using hpend
    refine ⟨rfl, ?_, ?_⟩
    · simp [getWorkflowResultForFile, List.find?, failedRecord]
    · simp [actionCellFor, isExecuting, hpend, hpend', getWorkflowResultForFile,
        List.find?, failedRecord]

/-- Witness for C9 over `baseState`: a successful upload, an upload
error, a full successful trigger, and a failed trigger. -/
theorem error_slot_witness :
    (handleUploadSuccess baseState sampleUpload sampleFile).error = none
      ∧ (handleUploadError baseState "boom").error = some "boom"
      ∧ (executeWorkflowStart baseState "f1").1.error = none
      ∧ (executeWorkflowResolve (executeWorkflowStart baseState "f1").1 "f1"
            (GatewayOutcome.ok succeededPayload) 5000).error = none
      ∧ ((executeWorkflowResolve baseState "f1"
            (GatewayOutcome.networkError (JsThrown.jsError "boom")) 5000).error
              = some "boom"
          ∧ getWorkflowResultForFile
              (executeWorkflowResolve baseState "f1"
                (GatewayOutcome.networkError (JsThrown.jsError "boom")) 5000) "f1"
              = some (failedRecord "f1" "boom" 5000)
          ∧ actionCellFor
              (executeWorkflowResolve baseState "f1"
                (GatewayOutcome.networkError (JsThrown.jsError "boom")) 5000) "f1"
              = ActionControl.retryButton "f1") := by
  have h := error_slot_single_and_cleared_on_success baseState sampleUpload sampleFile
    "f1" "boom" succeededPayload (GatewayOutcome.networkError (JsThrown.jsError "boom")) 5000
  exact ⟨h.1, h.2.1, h.2.2.1 (by decide), h.2.2.2.1 (by decide), h.2.2.2.2 rfl⟩

/-! ## C10: file-name validation -/

/-- C10 counterexample: the file name `"pdf"` contains no `'.'` — it has
no extension — yet `validateFile` accepts it, because `split('.').pop()`
of a dotless name is the whole name, which here is itself an allow-list
token. -/
theorem dotless_name_accepted :
    validateFile "pdf" = none ∧ ("pdf".toList.contains '.') = false := by
  decide

/-- C10 (amended): a file is accepted exactly when the lowercased final
`'.'`-separated segment of its name — the whole name, lowercased, when
the name contains no `'.'` — is one of the allowed extensions; so
uppercase extensions are accepted, multi-dot names are judged by their
final segment only, a dotless name is accepted precisely when the entire
lowercased name is itself an allowed extension token, and every rejection
carries the fixed message listing the allowed extensions. -/
theorem validateFile_none_iff (name : String) :
    validateFile name = none ↔ lastSegmentLower name ∈ supportedFormats := by
  cases hseg : (jsSplitDot name.data).getLast? with
  | none =>
    have hnm : ("" : String) ∉ supportedFormats := by decide
    simp [validateFile, lastSegmentLower, hseg, hnm]
  | some seg =>
    by_cases he : String.mk (seg.map Char.toLower) = ""
    · simp [validateFile, lastSegmentLower, hseg, he]
      decide
    · by_cases hc : String.mk (seg.map Char.toLower) ∈ supportedFormats
      · simp [validateFile, lastSegmentLower, hseg, he, hc]
      · simp [validateFile, lastSegmentLower, hseg, he, hc]

theorem validateFile_cases (name : String) :
    validateFile name = none ∨ validateFile name = some unsupportedFormatMessage := by
  cases hseg : (jsSplitDot name.data).getLast? with
  | none =>
    right
    simp [validateFile, hseg]
  | some seg =>
    by_cases hcond : String.mk (seg.map Char.toLower) = ""
        ∨ String.mk (seg.map Char.toLower) ∉ supportedFormats
    · right
      simp [validateFile, hseg, hcond]
    · left
      simp [validateFile, hseg, hcond]

/-- C10 (amended): a file is accepted exactly when the lowercased final
`'.'`-separated segment of its name — the whole name, lowercased, when
the name contains no `'.'` — is one of the allowed extensions; so
uppercase extensions are accepted, multi-dot names are judged by their
final segment only, a dotless name is accepted precisely when the entire
lowercased name is itself an allowed extension token, and every rejection
carries the fixed message listing the allowed extensions. -/
theorem validateFile_judges_final_segment (name : String) :
    (validateFile name = none ↔ lastSegmentLower name ∈ supportedFormats)
      ∧ (¬ lastSegmentLower name ∈ supportedFormats →
          validateFile name = some unsupportedFormatMessage)
      ∧ unsupportedFormatMessage
          = "サポートされていないファイル形式です。対応形式: png, jpg, jpeg, webp, gif, pdf" := by
  refine ⟨validateFile_none_iff name, ?_, rfl⟩
  intro hmem
  rcases validateFile_cases name with h | h
  · exact absurd ((validateFile_none_iff name).mp h) hmem
  · exact h

/-- Witness for C10's amended theorem: an uppercase extension is
accepted; a multi-dot name with an unknown final segment is rejected with
the listing message. -/
theorem validateFile_judges_final_segment_witness :
    validateFile "a.PDF" = none
      ∧ validateFile "archive.tar.xyz" = some unsupportedFormatMessage :=
  ⟨(validateFile_judges_final_segment "a.PDF").1.mpr (by decide),
   (validateFile_judges_final_segment "archive.tar.xyz").2.1 (by decide)⟩
